import Mathlib

/-!
Shallow embedding of openage's asset-export code
(`openage/convert/entity_object/export/formats/terrain_metadata.py` and
`openage/convert/entity_object/export/texture.py`), together with theorems
settling the specification claims about it.

Python values are modelled as follows: `int` is `Int`, `str` is `String`,
`dict` (insertion-ordered) is an association list with Python's
update-in-place insertion semantics, `None`-able values are `Option`,
and a raised exception is an `Except.error` carrying a `PyError`.
A Python `float` in this code is never used arithmetically: it is only
stored, tested for truthiness, and formatted by `str()`.  It is therefore
modelled by the pair of its `repr` string and its zero-ness (`PyFloat`).
-/

/-- Errors that the embedded code can raise, plus the error classes that the
specification names.  The source raises only `typeError` (subscripting
`None`), `keyError` (a missing `dict` key) and `exception` (a plain
`Exception`); the constructors `unsupportedSourceType`, `missingPaletteError`,
`emptyCutResultError` and `incompleteMetadataError` model the error classes
the spec names, which are defined nowhere in the source, so that the claims
about them can be stated and compared with what the code actually does. -/
inductive PyError where
  | typeError (msg : String)
  | keyError (key : Int)
  | exception (msg : String)
  | unsupportedSourceType
  | missingPaletteError
  | emptyCutResultError
  | incompleteMetadataError
deriving DecidableEq, Repr

/-- A Python `float` as used by this code: only its `str()`/`repr` form and
whether it is zero (the only two observations the source makes of it). -/
structure PyFloat where
  repr : String
  isZero : Bool
deriving DecidableEq, Repr

/-- The Python value `1.0` (initial scale factor). -/
def pyFloatOne : PyFloat := { repr := "1.0", isZero := false }

/-- The Python value `0.5`. -/
def pyFloatHalf : PyFloat := { repr := "0.5", isZero := false }

/-- Python `float(n)` for an `int` `n`: `repr` appends `.0` to the decimal
digits.  Faithful for the moderate integers this code ever converts
(Python floats represent such integers exactly and print them this way). -/
def pyFloatOfInt (n : Int) : PyFloat :=
  { repr := toString n ++ ".0", isZero := n = 0 }

/-- The argument type of `set_scalefactor` (`typing.Union[int, float]`). -/
inductive PyNum where
  | int (n : Int)
  | float (f : PyFloat)
deriving DecidableEq, Repr

/-- Python `float(x)` on an `int`-or-`float` value. -/
def pyFloatOf : PyNum → PyFloat
  | .int n => pyFloatOfInt n
  | .float f => f

/-- Python dict insertion `d[k] = v`: replaces the value in place when the key
is present (keeping its original position), appends otherwise. -/
def pyDictInsert {V : Type} (d : List (Int × V)) (k : Int) (v : V) :
    List (Int × V) :=
  match d with
  | [] => [(k, v)]
  | (k', v') :: rest =>
      if k' = k then (k, v) :: rest else (k', v') :: pyDictInsert rest k v

/-- First-match association-list lookup (Python `d[k]`, as `Option`). -/
def alookup {V : Type} (d : List (Int × V)) (k : Int) : Option V :=
  match d with
  | [] => none
  | (k', v') :: rest => if k' = k then some v' else alookup rest k

/-- The constant `terrain_metadata.FORMAT_VERSION`. -/
def FORMAT_VERSION : String := "1"

/-- The enum `terrain_metadata.LayerMode`: possible values for the mode of a layer. -/
inductive LayerMode where
  | OFF
  | LOOP
deriving DecidableEq, Repr

/-- The `.value` of a `LayerMode` member. -/
def LayerMode.value : LayerMode → String
  | .OFF => "off"
  | .LOOP => "loop"

/-- The record stored by `add_image` in `self.image_files`. -/
structure ImageEntry where
  image_id : Int
  filename : String
deriving DecidableEq, Repr

/-- The record stored by `set_blendtable` in `self.blendtable`. -/
structure BlendEntry where
  table_id : Int
  filename : String
deriving DecidableEq, Repr

/-- The record stored by `add_layer` in `self.layers`. -/
structure LayerEntry where
  layer_id : Int
  mode : Option LayerMode
  position : Option Int
  time_per_frame : Option PyFloat
  replay_delay : Option PyFloat
deriving DecidableEq, Repr

/-- The record appended by `add_frame` to `self.frames` (field order is the
dict insertion order, which `dump` serializes positionally). -/
structure FrameEntry where
  frame_idx : Int
  layer_id : Int
  img_id : Int
  xpos : Int
  ypos : Int
  xsize : Int
  ysize : Int
  priority : Int
  blend_mode : Int
deriving DecidableEq, Repr

/-- The class `terrain_metadata.TerrainMetadata`: the mutable state of one object.
`targetdir` and `filename` are set by the parent `DataDefinition.__init__`
(not under the exported sources; modelled from the spec as plain storage of
the two constructor arguments). -/
structure TerrainMetadata where
  targetdir : String
  filename : String
  scalefactor : PyFloat
  image_files : List (Int × ImageEntry)
  blendtable : Option BlendEntry
  layers : List (Int × LayerEntry)
  frames : List FrameEntry
deriving DecidableEq, Repr

namespace TerrainMetadata

/-- Constructor `TerrainMetadata.__init__`. -/
def init (targetdir filename : String) : TerrainMetadata :=
  { targetdir := targetdir
    filename := filename
    scalefactor := pyFloatOne
    image_files := []
    blendtable := none
    layers := []
    frames := [] }

/-- Method `TerrainMetadata.add_image`. -/
def add_image (t : TerrainMetadata) (img_id : Int) (filename : String) :
    TerrainMetadata :=
  let entry : ImageEntry := { image_id := img_id, filename := filename }
  { t with image_files := pyDictInsert t.image_files img_id entry }

/-- Method `TerrainMetadata.add_layer` (all optional parameters default to `None`). -/
def add_layer (t : TerrainMetadata) (layer_id : Int)
    (mode : Option LayerMode) (position : Option Int)
    (time_per_frame : Option PyFloat) (replay_delay : Option PyFloat) :
    TerrainMetadata :=
  let entry : LayerEntry :=
    { layer_id := layer_id
      mode := mode
      position := position
      time_per_frame := time_per_frame
      replay_delay := replay_delay }
  { t with layers := pyDictInsert t.layers layer_id entry }

/-- Method `TerrainMetadata.add_frame`. -/
def add_frame (t : TerrainMetadata) (frame_idx layer_id img_id xpos ypos
    xsize ysize priority blend_mode : Int) : TerrainMetadata :=
  let entry : FrameEntry :=
    { frame_idx := frame_idx
      layer_id := layer_id
      img_id := img_id
      xpos := xpos
      ypos := ypos
      xsize := xsize
      ysize := ysize
      priority := priority
      blend_mode := blend_mode }
  { t with frames := t.frames ++ [entry] }

/-- Method `TerrainMetadata.set_blendtable`. -/
def set_blendtable (t : TerrainMetadata) (table_id : Int) (filename : String) :
    TerrainMetadata :=
  { t with blendtable := some { table_id := table_id, filename := filename } }

/-- Method `TerrainMetadata.set_scalefactor`: stores `float(factor)`. -/
def set_scalefactor (t : TerrainMetadata) (factor : PyNum) : TerrainMetadata :=
  { t with scalefactor := pyFloatOf factor }

/-- One `imagefile` output line of `dump`. -/
def imagefileLine (img : ImageEntry) : String :=
  "imagefile " ++ toString img.image_id ++ " " ++ img.filename ++ "\n"

/-- The `mode` block of `dump`'s layer loop (`if layer["mode"]:` — `None` is
falsy, an enum member is always truthy). -/
def modeClause (mode : Option LayerMode) : String :=
  match mode with
  | some m => " mode=" ++ m.value
  | none => ""

/-- The `position` block of `dump`'s layer loop (`if layer["position"]:` —
`None` and `0` are falsy). -/
def positionClause (position : Option Int) : String :=
  match position with
  | some p => if p = 0 then "" else " position=" ++ toString p
  | none => ""

/-- The `time_per_frame` block of `dump`'s layer loop (`None` and `0.0` are
falsy). -/
def timePerFrameClause (time_per_frame : Option PyFloat) : String :=
  match time_per_frame with
  | some f => if f.isZero then "" else " time_per_frame=" ++ f.repr
  | none => ""

/-- The `replay_delay` block of `dump`'s layer loop (`None` and `0.0` are
falsy). -/
def replayDelayClause (replay_delay : Option PyFloat) : String :=
  match replay_delay with
  | some f => if f.isZero then "" else " replay_delay=" ++ f.repr
  | none => ""

/-- The body of `dump`'s layer loop for one layer record: the optional
clauses are appended only when Python finds the stored value truthy. -/
def layerLine (l : LayerEntry) : String :=
  "layer " ++ toString l.layer_id
  ++ modeClause l.mode
  ++ positionClause l.position
  ++ timePerFrameClause l.time_per_frame
  ++ replayDelayClause l.replay_delay
  ++ "\n"

/-- One `frame` output line of `dump`: the frame dict's values joined by
spaces, in insertion order. -/
def frameLine (f : FrameEntry) : String :=
  "frame " ++ String.intercalate " "
    ([f.frame_idx, f.layer_id, f.img_id, f.xpos, f.ypos,
      f.xsize, f.ysize, f.priority, f.blend_mode].map toString) ++ "\n"

/-- The `imagefile` section of `dump` (one line per `image_files` entry,
insertion order). -/
def imagefileSection (t : TerrainMetadata) : String :=
  String.join (t.image_files.map (fun p => imagefileLine p.2))

/-- The `layer` section of `dump` (one line per `layers` entry,
insertion order). -/
def layerSection (t : TerrainMetadata) : String :=
  String.join (t.layers.map (fun p => layerLine p.2))

/-- The `frame` section of `dump` (one line per `frames` entry). -/
def frameSection (t : TerrainMetadata) : String :=
  String.join (t.frames.map frameLine)

/-- Method `TerrainMetadata.dump`.  When `self.blendtable` is still `None`, the
subscript `self.blendtable['table_id']` raises a `TypeError` (`NoneType`
is not subscriptable); no dedicated error class is involved. -/
def dump (t : TerrainMetadata) : Except PyError String :=
  match t.blendtable with
  | none => .error (.typeError "NoneType object is not subscriptable")
  | some bt => .ok (
      "# openage terrain definition file\n\n"
      ++ "version " ++ FORMAT_VERSION ++ "\n\n"
      ++ imagefileSection t
      ++ "\n"
      ++ "blendtable " ++ toString bt.table_id ++ " " ++ bt.filename ++ "\n\n"
      ++ "scalefactor " ++ t.scalefactor.repr ++ "\n\n"
      ++ layerSection t
      ++ "\n"
      ++ frameSection t)

/-- The method call `t.dump()` with the post-call object state made explicit:
the body of `dump` assigns only to the local `output_str` and never to a
field of `self`, so the object after the call is the object before it. -/
def dumpCall (t : TerrainMetadata) :
    Except PyError (TerrainMetadata × String) :=
  (dump t).map (fun s => (t, s))

end TerrainMetadata

/-- Python truthiness of an optional enum member: `None` is falsy, an enum
member is always truthy. -/
def truthyOptMode : Option LayerMode → Bool
  | none => false
  | some _ => true

/-- Python truthiness of an optional `int`: `None` and `0` are falsy. -/
def truthyOptInt : Option Int → Bool
  | none => false
  | some n => n != 0

/-- Python truthiness of an optional `float`: `None` and zero are falsy. -/
def truthyOptFloat : Option PyFloat → Bool
  | none => false
  | some f => ! f.isZero

/-- Append a clause only when its guard holds (the spec's "appended only if
their value is truthy"). -/
def optClause (b : Bool) (s : String) : String :=
  if b then s else ""

/-- Text of an optional enum member (only read under a truthy guard). -/
def modeText : Option LayerMode → String
  | some m => m.value
  | none => ""

/-- Text of an optional `int` (only read under a truthy guard). -/
def intText : Option Int → String
  | some n => toString n
  | none => ""

/-- Text of an optional `float` (only read under a truthy guard). -/
def floatText : Option PyFloat → String
  | some f => f.repr
  | none => ""

/-- The layer line as the spec words it: `layer <id>` followed by each
optional attribute, in the fixed order mode, position, time_per_frame,
replay_delay, appended if and only if its stored value is truthy. -/
def specLayerLine (l : LayerEntry) : String :=
  "layer " ++ toString l.layer_id
  ++ optClause (truthyOptMode l.mode) (" mode=" ++ modeText l.mode)
  ++ optClause (truthyOptInt l.position) (" position=" ++ intText l.position)
  ++ optClause (truthyOptFloat l.time_per_frame)
      (" time_per_frame=" ++ floatText l.time_per_frame)
  ++ optClause (truthyOptFloat l.replay_delay)
      (" replay_delay=" ++ floatText l.replay_delay)
  ++ "\n"

/-- The identifiers of a call sequence, first occurrence of each kept, in
order (the claim's "position of that identifier's first insertion"). -/
def firstOccurrences (l : List Int) : List Int :=
  l.foldl (fun seen k => if k ∈ seen then seen else seen ++ [k]) []

/-- The value supplied by the last call with a given identifier, if any (the
claim's "most recently supplied values"). -/
def lastVal {V : Type} : List (Int × V) → Int → Option V
  | [], _ => none
  | c :: rest, k =>
    match lastVal rest k with
    | some v => some v
    | none => if c.1 = k then some c.2 else none

/-- The optional arguments of one `add_layer` call. -/
structure LayerArgs where
  mode : Option LayerMode
  position : Option Int
  time_per_frame : Option PyFloat
  replay_delay : Option PyFloat
deriving DecidableEq, Repr

/-- The `layers` record that `add_layer` stores for one call. -/
def mkLayerEntry (layer_id : Int) (a : LayerArgs) : LayerEntry :=
  { layer_id := layer_id
    mode := a.mode
    position := a.position
    time_per_frame := a.time_per_frame
    replay_delay := a.replay_delay }

/-- The `image_files` record that `add_image` stores for one call. -/
def mkImageEntry (img_id : Int) (filename : String) : ImageEntry :=
  { image_id := img_id, filename := filename }

/-- Apply a sequence of `add_image` calls. -/
def applyImages (t : TerrainMetadata) (calls : List (Int × String)) :
    TerrainMetadata :=
  calls.foldl (fun t c => t.add_image c.1 c.2) t

/-- Apply a sequence of `add_layer` calls. -/
def applyLayers (t : TerrainMetadata) (calls : List (Int × LayerArgs)) :
    TerrainMetadata :=
  calls.foldl
    (fun t c => t.add_layer c.1 c.2.mode c.2.position c.2.time_per_frame
      c.2.replay_delay) t

/-- A fresh metadata object after arbitrary `add_image` and `add_layer`
call sequences. -/
def buildMeta (td fn : String) (imgs : List (Int × String))
    (lys : List (Int × LayerArgs)) : TerrainMetadata :=
  applyLayers (applyImages (TerrainMetadata.init td fn) imgs) lys

/-- The metadata object of the spec's round-trip example, built by the exact
call sequence the example prescribes. -/
def exampleC1 : TerrainMetadata :=
  ((((((TerrainMetadata.init "out" "test.terrain").add_image 0 "0.png"
    ).set_blendtable 1 "blend.png"
    ).set_scalefactor (.int 2)
    ).add_layer 0 (some .LOOP) none (some pyFloatHalf) none
    ).add_frame 0 0 0 0 0 32 32 0 0)

/-- The exact text the spec's round-trip example expects. -/
def exampleC1Output : String :=
  "# openage terrain definition file\n\nversion 1\n\nimagefile 0 0.png\n\n"
  ++ "blendtable 1 blend.png\n\nscalefactor 2.0\n\n"
  ++ "layer 0 mode=loop time_per_frame=0.5\n\nframe 0 0 0 0 0 32 32 0 0\n"

/-- A metadata object with two layers, one added with `position=0` and one
with `position=3`, exercising optional-field suppression. -/
def examplePositions : TerrainMetadata :=
  (((TerrainMetadata.init "out" "p.terrain").set_blendtable 0 "b.png"
    ).add_layer 0 none (some 0) none none
    ).add_layer 1 none (some 3) none none

/-- The text `dump()` produces for `examplePositions`: no `position=` clause
for the layer added with `position=0`, a `position=3` clause for the other. -/
def examplePositionsOutput : String :=
  "# openage terrain definition file\n\nversion 1\n\n\n"
  ++ "blendtable 0 b.png\n\nscalefactor 1.0\n\n"
  ++ "layer 0\nlayer 1 position=3\n\n"

/-- A `numpy` RGBA pixel array: its shape (`shape0` rows, `shape1` columns)
plus buffer contents that this code never inspects. -/
structure NDArray where
  shape0 : Nat
  shape1 : Nat
  data : List Nat
deriving DecidableEq, Repr

/-- The class `texture.TextureImage`, built from an already-materialized array (the
call sites under verification always supply arrays, per the collaborator
contract `get_picture_data -> RasterImage`, so the branch converting a PIL
image to an array is never taken). -/
structure TextureImage where
  width : Nat
  height : Nat
  hotspot : Int × Int
  data : NDArray
deriving DecidableEq, Repr

/-- Constructor `TextureImage.__init__`: width and height from the array shape, hotspot
defaulting to `(0, 0)` when `None`. -/
def TextureImage.make (picture_data : NDArray) (hotspot : Option (Int × Int)) :
    TextureImage :=
  { width := picture_data.shape1
    height := picture_data.shape0
    hotspot := hotspot.getD (0, 0)
    data := picture_data }

/-- A palette (`ColorTable`): its `.array` payload, opaque to this code. -/
structure ColorTable where
  array : List Nat
deriving DecidableEq, Repr

/-- One frame of an `SLP`/`SMP`/`SMX` input (an `SLPFrame`, `SMPLayer` or
`SMXLayer`): exactly the three capabilities the texture code calls on it. -/
structure SourceFrame where
  get_palette_number : Option Int
  get_picture_data : Option (List Nat) → NDArray
  get_hotspot : Int × Int

/-- Modelled from the spec: `TILE_HALFSIZE` is a hardcoded terrain-tile-size
constant imported from outside the exported sources; only its `y` component
is used here (as the hotspot of blending-mask tiles, "the west corner of a
tile") and no claim depends on its numeric value. -/
def TILE_HALFSIZE_y : Int := 24

/-- The `input_data` argument of `Texture.__init__`: the `isinstance`
branches recognize `SLP`, `SMP` and `SMX` (each exposing `main_frames`) and
`BlendingMode` (exposing `alphamasks`, each tile already yielding an array);
anything else falls into `unknown`, which carries the text that
`str(type(input_data))` would interpolate into the error message. -/
inductive TextureInput where
  | slp (main_frames : List SourceFrame)
  | smp (main_frames : List SourceFrame)
  | smx (main_frames : List SourceFrame)
  | blendingMode (alphamasks : List NDArray)
  | unknown (typeName : String)

namespace Texture

/-- The palette resolution done per frame in `Texture.__init__`: a `None`
palette number yields no palette; otherwise `palettes[palette_number]`
raises `TypeError` when `palettes` is `None`, raises `KeyError` when the key
is absent, and otherwise yields the table's `.array`. -/
def resolvePalette (palettes : Option (List (Int × ColorTable)))
    (frame : SourceFrame) : Except PyError (Option (List Nat)) :=
  match frame.get_palette_number with
  | none => .ok none
  | some pn =>
    match palettes with
    | none => .error (.typeError "NoneType object is not subscriptable")
    | some ps =>
      match alookup ps pn with
      | none => .error (.keyError pn)
      | some ct => .ok (some ct.array)

/-- Method `Texture._to_subtextures`: build the frame's `TextureImage` from its
picture data and hotspot; a configured cutter (truthy `custom_cutter`) gets
to cut it, otherwise the single-element list is returned.  The result of a
configured cutter is forwarded unchecked. -/
def to_subtextures (frame : SourceFrame) (main_palette : Option (List Nat))
    (custom_cutter : Option (TextureImage → List TextureImage)) :
    List TextureImage :=
  let subtex := TextureImage.make (frame.get_picture_data main_palette)
    (some frame.get_hotspot)
  match custom_cutter with
  | some cutter => cutter subtex
  | none => [subtex]

/-- The frame loop of `Texture.__init__` for `SLP`/`SMP`/`SMX` inputs:
resolve each frame's palette, then append every subtexture that
`_to_subtextures` yields, in order. -/
def collectFrames (palettes : Option (List (Int × ColorTable)))
    (custom_cutter : Option (TextureImage → List TextureImage)) :
    List SourceFrame → Except PyError (List TextureImage)
  | [] => .ok []
  | f :: fs =>
    match resolvePalette palettes f with
    | .error e => .error e
    | .ok parr =>
      match collectFrames palettes custom_cutter fs with
      | .error e => .error e
      | .ok rest => .ok (to_subtextures f parr custom_cutter ++ rest)

/-- The computation of `self.frames` in `Texture.__init__`, per input
variant; the unrecognized case raises a plain `Exception` naming the type. -/
def initFrames (input_data : TextureInput)
    (palettes : Option (List (Int × ColorTable)))
    (custom_cutter : Option (TextureImage → List TextureImage)) :
    Except PyError (List TextureImage) :=
  match input_data with
  | .slp fs => collectFrames palettes custom_cutter fs
  | .smp fs => collectFrames palettes custom_cutter fs
  | .smx fs => collectFrames palettes custom_cutter fs
  | .blendingMode masks =>
      .ok (masks.map (fun m => TextureImage.make m (some (0, TILE_HALFSIZE_y))))
  | .unknown tn =>
      .error (.exception ("cannot create Texture from unknown source type: "
        ++ tn))

/-- The `main_frames` of a recognized `SLP`/`SMP`/`SMX` input. -/
def mainFramesOf : TextureInput → Option (List SourceFrame)
  | .slp fs => some fs
  | .smp fs => some fs
  | .smx fs => some fs
  | .blendingMode _ => none
  | .unknown _ => none

/-- The one subtexture produced for a frame when no cutter is configured:
its raster from `get_picture_data` under the frame's resolved palette, its
hotspot from `get_hotspot`. -/
def frameSubtex (palettes : Option (List (Int × ColorTable)))
    (f : SourceFrame) : TextureImage :=
  TextureImage.make
    (f.get_picture_data
      (match resolvePalette palettes f with
       | .ok p => p
       | .error _ => none))
    (some f.get_hotspot)

/-- Classmethod `Texture.get_data_format_members` (the `game_version` argument is
unused; the third component of every row is Python `None`). -/
def get_data_format_members {α : Type} (game_version : α) :
    List (Bool × String × Option Unit × String) :=
  [(true, "x", none, "int32_t"),
   (true, "y", none, "int32_t"),
   (true, "w", none, "int32_t"),
   (true, "h", none, "int32_t"),
   (true, "cx", none, "int32_t"),
   (true, "cy", none, "int32_t")]

end Texture

/-- A concrete pixel array. -/
def exArray1 : NDArray := { shape0 := 3, shape1 := 5, data := [1, 2] }

/-- Another concrete pixel array. -/
def exArray2 : NDArray := { shape0 := 2, shape1 := 2, data := [9] }

/-- A self-contained frame (no palette needed). -/
def exFrame1 : SourceFrame :=
  { get_palette_number := none
    get_picture_data := fun _ => exArray1
    get_hotspot := (1, 2) }

/-- A palette-indexed frame using palette number 1. -/
def exFrame2 : SourceFrame :=
  { get_palette_number := some 1
    get_picture_data := fun _ => exArray2
    get_hotspot := (0, 0) }

/-- A palette-indexed frame whose palette number 7 is never supplied. -/
def exFrameMissingPalette : SourceFrame :=
  { get_palette_number := some 7
    get_picture_data := fun _ => exArray1
    get_hotspot := (0, 0) }

/-- A concrete palette table. -/
def exColorTable : ColorTable := { array := [5] }

/-- A palette mapping supplying only palette number 1. -/
def exPalettes : Option (List (Int × ColorTable)) := some [(1, exColorTable)]

/-- C1: populating a `TerrainMetadata` exactly as in the spec's round-trip
example (`add_image(0, "0.png")`; `set_blendtable(1, "blend.png")`;
`set_scalefactor(2)` with the integer 2; `add_layer(0, mode=LOOP,
time_per_frame=0.5)`; `add_frame(0,0,0,0,0,32,32,0,0)`) makes `dump()`
return exactly the expected text, with the integer scale factor emitted
as the float `2.0`. -/
theorem c1_metadata_roundtrip :
    TerrainMetadata.dump exampleC1 = .ok exampleC1Output := by
  rfl

theorem modeClause_eq_spec (m : Option LayerMode) :
    TerrainMetadata.modeClause m
      = optClause (truthyOptMode m) (" mode=" ++ modeText m) := by
  cases m <;> rfl

theorem positionClause_eq_spec (p : Option Int) :
    TerrainMetadata.positionClause p
      = optClause (truthyOptInt p) (" position=" ++ intText p) := by
  cases p with
  | none => rfl
  | some q =>
    by_cases h : q = 0 <;>
      simp [TerrainMetadata.positionClause, optClause, truthyOptInt, intText, h]

theorem timePerFrameClause_eq_spec (f : Option PyFloat) :
    TerrainMetadata.timePerFrameClause f
      = optClause (truthyOptFloat f) (" time_per_frame=" ++ floatText f) := by
  cases f with
  | none => rfl
  | some g =>
    cases hz : g.isZero <;>
      simp [TerrainMetadata.timePerFrameClause, optClause, truthyOptFloat,
        floatText, hz]

theorem replayDelayClause_eq_spec (f : Option PyFloat) :
    TerrainMetadata.replayDelayClause f
      = optClause (truthyOptFloat f) (" replay_delay=" ++ floatText f) := by
  cases f with
  | none => rfl
  | some g =>
    cases hz : g.isZero <;>
      simp [TerrainMetadata.replayDelayClause, optClause, truthyOptFloat,
        floatText, hz]

/-- C4: every layer serialized by `dump()` has its optional attributes
(mode, position, time_per_frame, replay_delay) appended, in that fixed
order, if and only if the stored value is truthy; concretely, a layer added
with `position=0` emits no `position=` clause while a layer added with
`position=3` emits `position=3`. -/
theorem c4_optional_layer_attributes :
    (∀ l : LayerEntry, TerrainMetadata.layerLine l = specLayerLine l)
    ∧ TerrainMetadata.dump examplePositions = .ok examplePositionsOutput := by
  constructor
  · intro l
    rw [TerrainMetadata.layerLine, specLayerLine, modeClause_eq_spec,
      positionClause_eq_spec, timePerFrameClause_eq_spec,
      replayDelayClause_eq_spec]
  · rfl

theorem c2_counterexample :
    TerrainMetadata.dump (TerrainMetadata.init "out" "a.terrain")
      = .error (.typeError "NoneType object is not subscriptable")
    ∧ TerrainMetadata.dump (TerrainMetadata.init "out" "a.terrain")
      ≠ .error .incompleteMetadataError := by
  refine ⟨rfl, ?_⟩
  intro hcon
  rw [show TerrainMetadata.dump (TerrainMetadata.init "out" "a.terrain")
      = .error (.typeError "NoneType object is not subscriptable") from rfl]
    at hcon
  injection hcon with h2
  exact PyError.noConfusion h2

/-- C2 (amended): on every `TerrainMetadata` whose blend-table reference is
still unset, `dump()` fails, but with a `TypeError` raised by subscripting
the `None` blend table, not with a dedicated `IncompleteMetadataError`
(no such class exists in the code). -/
theorem c2_unset_blendtable_raises_typeerror (t : TerrainMetadata)
    (h : t.blendtable = none) :
    TerrainMetadata.dump t
      = .error (.typeError "NoneType object is not subscriptable") := by
  unfold TerrainMetadata.dump
  rw [h]

theorem c2_witness :
    TerrainMetadata.dump (TerrainMetadata.init "o2" "b.terrain")
      = .error (.typeError "NoneType object is not subscriptable") :=
  c2_unset_blendtable_raises_typeerror (TerrainMetadata.init "o2" "b.terrain")
    rfl

/-- C9: `dump()` never mutates the metadata state: when the call succeeds,
`scalefactor`, `image_files`, `blendtable`, `layers` and `frames` are
identical before and after, and a second call returns the identical
string. -/
theorem c9_dump_is_pure (t t' : TerrainMetadata) (s : String)
    (h : TerrainMetadata.dumpCall t = .ok (t', s)) :
    t'.scalefactor = t.scalefactor ∧ t'.image_files = t.image_files
    ∧ t'.blendtable = t.blendtable ∧ t'.layers = t.layers
    ∧ t'.frames = t.frames
    ∧ TerrainMetadata.dumpCall t' = .ok (t', s) := by
  have ht : t' = t := by
    unfold TerrainMetadata.dumpCall at h
    cases hd : TerrainMetadata.dump t with
    | error e => rw [hd] at h; exact Except.noConfusion h
    | ok s0 =>
      rw [hd] at h
      simp only [Except.map, Except.ok.injEq, Prod.mk.injEq] at h
      exact h.1.symm
  subst ht
  exact ⟨rfl, rfl, rfl, rfl, rfl, h⟩

theorem c9_witness :
    exampleC1.scalefactor = exampleC1.scalefactor
    ∧ exampleC1.image_files = exampleC1.image_files
    ∧ exampleC1.blendtable = exampleC1.blendtable
    ∧ exampleC1.layers = exampleC1.layers
    ∧ exampleC1.frames = exampleC1.frames
    ∧ TerrainMetadata.dumpCall exampleC1 = .ok (exampleC1, exampleC1Output) :=
  c9_dump_is_pure exampleC1 exampleC1 exampleC1Output (by rfl)

theorem collectFrames_none_cutter (palettes : Option (List (Int × ColorTable)))
    (fs : List SourceFrame) (L : List TextureImage)
    (h : Texture.collectFrames palettes none fs = .ok L) :
    L = fs.map (Texture.frameSubtex palettes) := by
  induction fs generalizing L with
  | nil =>
    rw [Texture.collectFrames] at h
    injection h with h1
    simp [h1.symm]
  | cons f fs ih =>
    rw [Texture.collectFrames] at h
    cases hr : Texture.resolvePalette palettes f with
    | error e => rw [hr] at h; exact Except.noConfusion h
    | ok parr =>
      rw [hr] at h
      cases hc : Texture.collectFrames palettes none fs with
      | error e => rw [hc] at h; exact Except.noConfusion h
      | ok rest =>
        rw [hc] at h
        injection h with h1
        rw [← h1, ih rest hc]
        simp [Texture.to_subtextures, Texture.frameSubtex, hr]

/-- C3: when no cutting strategy is configured (`custom_cutter is None`),
a successfully constructed texture holds exactly one subtexture per source
frame, each carrying that frame's raster (`get_picture_data` under its
resolved palette) and hotspot, in the original frame order. -/
theorem c3_no_cutter_one_subtexture_per_frame (input : TextureInput)
    (fs : List SourceFrame) (palettes : Option (List (Int × ColorTable)))
    (L : List TextureImage)
    (hin : Texture.mainFramesOf input = some fs)
    (h : Texture.initFrames input palettes none = .ok L) :
    L = fs.map (Texture.frameSubtex palettes) ∧ L.length = fs.length := by
  have hL : L = fs.map (Texture.frameSubtex palettes) := by
    cases input with
    | slp gs =>
      rw [Texture.mainFramesOf] at hin
      injection hin with hg
      subst hg
      exact collectFrames_none_cutter palettes _ L h
    | smp gs =>
      rw [Texture.mainFramesOf] at hin
      injection hin with hg
      subst hg
      exact collectFrames_none_cutter palettes _ L h
    | smx gs =>
      rw [Texture.mainFramesOf] at hin
      injection hin with hg
      subst hg
      exact collectFrames_none_cutter palettes _ L h
    | blendingMode masks => exact Option.noConfusion hin
    | unknown tn => exact Option.noConfusion hin
  exact ⟨hL, by rw [hL, List.length_map]⟩

theorem c3_witness :
    Texture.initFrames (.slp [exFrame1, exFrame2]) exPalettes none
      = .ok ([exFrame1, exFrame2].map (Texture.frameSubtex exPalettes))
    ∧ ([exFrame1, exFrame2].map (Texture.frameSubtex exPalettes)).length
      = [exFrame1, exFrame2].length := by
  have h0 : Texture.initFrames (.slp [exFrame1, exFrame2]) exPalettes none
      = .ok ([exFrame1, exFrame2].map (Texture.frameSubtex exPalettes)) := rfl
  exact ⟨h0, (c3_no_cutter_one_subtexture_per_frame
    (.slp [exFrame1, exFrame2]) [exFrame1, exFrame2] exPalettes
    ([exFrame1, exFrame2].map (Texture.frameSubtex exPalettes)) rfl h0).2⟩

theorem c5_counterexample :
    Texture.initFrames (.slp [exFrameMissingPalette]) (some []) none
      = .error (.keyError 7)
    ∧ Texture.initFrames (.slp [exFrameMissingPalette]) (some []) none
      ≠ .error .missingPaletteError := by
  refine ⟨rfl, ?_⟩
  intro hcon
  rw [show Texture.initFrames (.slp [exFrameMissingPalette]) (some []) none
      = .error (.keyError 7) from rfl] at hcon
  injection hcon with h2
  exact PyError.noConfusion h2

/-- C5 (amended): when a frame reports a palette number absent from the
supplied palette dict (and every earlier frame resolves), construction
fails — but with the `KeyError` of the Python dict lookup, carrying the
missing palette number, not with a dedicated `MissingPaletteError` (no such
class exists in the code). -/
theorem c5_missing_palette_raises_keyerror (gs : List SourceFrame)
    (f : SourceFrame) (fs : List SourceFrame)
    (ps : List (Int × ColorTable)) (pn : Int)
    (cutter : Option (TextureImage → List TextureImage))
    (hok : ∀ g ∈ gs, ∃ p, Texture.resolvePalette (some ps) g = .ok p)
    (hpn : f.get_palette_number = some pn)
    (hmiss : alookup ps pn = none) :
    Texture.collectFrames (some ps) cutter (gs ++ f :: fs)
      = .error (.keyError pn) := by
  induction gs with
  | nil =>
    have hres : Texture.resolvePalette (some ps) f = .error (.keyError pn) := by
      rw [Texture.resolvePalette, hpn]
      dsimp only
      rw [hmiss]
    simp only [List.nil_append]
    rw [Texture.collectFrames, hres]
  | cons g gs ih =>
    obtain ⟨p, hp⟩ := hok g (by simp)
    have hrec := ih (fun g' hg' => hok g' (by simp [hg']))
    simp only [List.cons_append]
    rw [Texture.collectFrames, hp]
    dsimp only
    rw [hrec]

theorem c5_witness :
    Texture.collectFrames (some [(1, exColorTable)]) none
      ([exFrame2] ++ exFrameMissingPalette :: []) = .error (.keyError 7) :=
  c5_missing_palette_raises_keyerror [exFrame2] exFrameMissingPalette []
    [(1, exColorTable)] 7 none
    (by
      intro g hg
      rw [List.mem_singleton] at hg
      subst hg
      exact ⟨some exColorTable.array, rfl⟩)
    rfl rfl

theorem c6_counterexample :
    Texture.collectFrames exPalettes (some (fun _ => [])) [exFrame1]
      = .ok []
    ∧ Texture.collectFrames exPalettes (some (fun _ => [])) [exFrame1]
      ≠ .error .emptyCutResultError := by
  refine ⟨rfl, ?_⟩
  intro hcon
  rw [show Texture.collectFrames exPalettes (some (fun _ => [])) [exFrame1]
      = .ok [] from rfl] at hcon
  exact Except.noConfusion hcon

/-- C6 (amended): a configured cutting strategy returning zero pieces for a
frame is not detected: no error is raised, and that frame simply contributes
zero subtextures, the remaining frames being processed as if it were not
there. -/
theorem c6_empty_cut_contributes_nothing
    (palettes : Option (List (Int × ColorTable)))
    (cutter : TextureImage → List TextureImage)
    (f : SourceFrame) (fs : List SourceFrame) (parr : Option (List Nat))
    (hres : Texture.resolvePalette palettes f = .ok parr)
    (hcut : cutter (TextureImage.make (f.get_picture_data parr)
      (some f.get_hotspot)) = []) :
    Texture.collectFrames palettes (some cutter) (f :: fs)
      = Texture.collectFrames palettes (some cutter) fs := by
  rw [Texture.collectFrames, hres]
  cases hc : Texture.collectFrames palettes (some cutter) fs with
  | error e => rfl
  | ok rest => simp [Texture.to_subtextures, hcut]

theorem c6_witness :
    Texture.collectFrames none (some (fun _ => ([] : List TextureImage)))
      [exFrame1]
      = Texture.collectFrames none (some (fun _ => [])) [] :=
  c6_empty_cut_contributes_nothing none (fun _ => []) exFrame1 [] none rfl rfl

theorem c7_counterexample :
    Texture.initFrames (.unknown "openage.Foo") none none
      = .error (.exception
          "cannot create Texture from unknown source type: openage.Foo")
    ∧ Texture.initFrames (.unknown "openage.Foo") none none
      ≠ .error .unsupportedSourceType := by
  refine ⟨rfl, ?_⟩
  intro hcon
  rw [show Texture.initFrames (.unknown "openage.Foo") none none
      = .error (.exception
          "cannot create Texture from unknown source type: openage.Foo")
    from rfl] at hcon
  injection hcon with h2
  exact PyError.noConfusion h2

/-- C7 (amended): an input matching none of the four recognized variants
makes construction fail — but by raising a plain `Exception` whose message
names the unknown type, not a dedicated `UnsupportedSourceType` class (no
such class exists in the code). -/
theorem c7_unknown_source_plain_exception (tn : String)
    (palettes : Option (List (Int × ColorTable)))
    (cutter : Option (TextureImage → List TextureImage)) :
    Texture.initFrames (.unknown tn) palettes cutter
      = .error (.exception
          ("cannot create Texture from unknown source type: " ++ tn)) := rfl

/-- C8: the atlas placement struct declares exactly six fields, all typed
`int32_t`, in the fixed order x, y, w (width), h (height), cx (hotspot-x),
cy (hotspot-y). -/
theorem c8_data_format_members {α : Type} (game_version : α) :
    Texture.get_data_format_members game_version
      = [(true, "x", none, "int32_t"), (true, "y", none, "int32_t"),
         (true, "w", none, "int32_t"), (true, "h", none, "int32_t"),
         (true, "cx", none, "int32_t"), (true, "cy", none, "int32_t")]
    ∧ (Texture.get_data_format_members game_version).map
        (fun m => m.2.2.2) = ["int32_t", "int32_t", "int32_t", "int32_t",
          "int32_t", "int32_t"]
    ∧ (Texture.get_data_format_members game_version).length = 6 :=
  ⟨rfl, rfl, rfl⟩

theorem map_fst_pyDictInsert {V : Type} (d : List (Int × V)) (k : Int)
    (v : V) :
    (pyDictInsert d k v).map Prod.fst =
      if k ∈ d.map Prod.fst then d.map Prod.fst
      else d.map Prod.fst ++ [k] := by
  induction d with
  | nil => simp [pyDictInsert]
  | cons c rest ih =>
    obtain ⟨k', v'⟩ := c
    by_cases h : k' = k
    · subst h
      simp [pyDictInsert]
    · have h' : ¬ (k = k') := fun hh => h hh.symm
      simp only [pyDictInsert, if_neg h, List.map_cons, List.mem_cons]
      rw [ih]
      by_cases hk : k ∈ rest.map Prod.fst <;> simp [hk, h']

theorem alookup_pyDictInsert_self {V : Type} (d : List (Int × V)) (k : Int)
    (v : V) :
    alookup (pyDictInsert d k v) k = some v := by
  induction d with
  | nil => simp [pyDictInsert, alookup]
  | cons c rest ih =>
    obtain ⟨k', v'⟩ := c
    by_cases h : k' = k <;> simp [pyDictInsert, alookup, h, ih]

theorem alookup_pyDictInsert_ne {V : Type} (d : List (Int × V))
    (k k' : Int) (v : V) (h : k' ≠ k) :
    alookup (pyDictInsert d k v) k' = alookup d k' := by
  have h' : ¬ (k = k') := fun hh => h hh.symm
  induction d with
  | nil => simp [pyDictInsert, alookup, h']
  | cons c rest ih =>
    obtain ⟨k'', v''⟩ := c
    by_cases h2 : k'' = k
    · subst h2
      simp [pyDictInsert, alookup, h']
    · simp [pyDictInsert, alookup, h2, ih]

theorem map_fst_dictFold {A V : Type} (mkV : Int → A → V)
    (calls : List (Int × A)) (d : List (Int × V)) :
    (calls.foldl (fun d c => pyDictInsert d c.1 (mkV c.1 c.2)) d).map
        Prod.fst
      = calls.foldl
          (fun seen c => if c.1 ∈ seen then seen else seen ++ [c.1])
          (d.map Prod.fst) := by
  induction calls generalizing d with
  | nil => rfl
  | cons c rest ih =>
    simp only [List.foldl_cons]
    rw [ih, map_fst_pyDictInsert]

theorem alookup_dictFold {A V : Type} (mkV : Int → A → V)
    (calls : List (Int × A)) (d : List (Int × V)) (k : Int) :
    alookup (calls.foldl (fun d c => pyDictInsert d c.1 (mkV c.1 c.2)) d) k
      = match lastVal calls k with
        | some a => some (mkV k a)
        | none => alookup d k := by
  induction calls generalizing d with
  | nil => rfl
  | cons c rest ih =>
    simp only [List.foldl_cons, lastVal]
    rw [ih]
    cases hl : lastVal rest k with
    | some a => rfl
    | none =>
      dsimp only
      by_cases h : c.1 = k
      · rw [if_pos h, ← h, alookup_pyDictInsert_self]
      · rw [if_neg h, alookup_pyDictInsert_ne _ _ _ _ (fun hh => h hh.symm)]

theorem image_files_applyImages (t : TerrainMetadata)
    (calls : List (Int × String)) :
    (applyImages t calls).image_files
      = calls.foldl (fun d c => pyDictInsert d c.1 (mkImageEntry c.1 c.2))
          t.image_files := by
  induction calls generalizing t with
  | nil => rfl
  | cons c rest ih =>
    simp only [applyImages, List.foldl_cons] at ih ⊢
    rw [ih (t.add_image c.1 c.2)]
    rfl

theorem layers_applyImages (t : TerrainMetadata)
    (calls : List (Int × String)) :
    (applyImages t calls).layers = t.layers := by
  induction calls generalizing t with
  | nil => rfl
  | cons c rest ih =>
    simp only [applyImages, List.foldl_cons] at ih ⊢
    rw [ih (t.add_image c.1 c.2)]
    rfl

theorem layers_applyLayers (t : TerrainMetadata)
    (calls : List (Int × LayerArgs)) :
    (applyLayers t calls).layers
      = calls.foldl (fun d c => pyDictInsert d c.1 (mkLayerEntry c.1 c.2))
          t.layers := by
  induction calls generalizing t with
  | nil => rfl
  | cons c rest ih =>
    simp only [applyLayers, List.foldl_cons] at ih ⊢
    rw [ih]
    rfl

theorem image_files_applyLayers (t : TerrainMetadata)
    (calls : List (Int × LayerArgs)) :
    (applyLayers t calls).image_files = t.image_files := by
  induction calls generalizing t with
  | nil => rfl
  | cons c rest ih =>
    simp only [applyLayers, List.foldl_cons] at ih ⊢
    rw [ih]
    rfl

/-- C10: repeated `add_image` (respectively `add_layer`) calls with the same
identifier replace the earlier record instead of appending another: the dict
holds one entry per distinct identifier, positioned at that identifier's
first insertion and carrying the most recently supplied values, and `dump()`
emits exactly one `imagefile` (respectively `layer`) line per entry, in that
order. -/
theorem c10_duplicate_identifier_replaces (td fn : String)
    (imgs : List (Int × String)) (lys : List (Int × LayerArgs)) :
    ((buildMeta td fn imgs lys).image_files.map Prod.fst
        = firstOccurrences (imgs.map Prod.fst))
    ∧ (∀ k, alookup (buildMeta td fn imgs lys).image_files k
        = (lastVal imgs k).map (fun f => mkImageEntry k f))
    ∧ ((buildMeta td fn imgs lys).layers.map Prod.fst
        = firstOccurrences (lys.map Prod.fst))
    ∧ (∀ k, alookup (buildMeta td fn imgs lys).layers k
        = (lastVal lys k).map (fun a => mkLayerEntry k a))
    ∧ TerrainMetadata.imagefileSection (buildMeta td fn imgs lys)
        = String.join ((buildMeta td fn imgs lys).image_files.map
            (fun p => TerrainMetadata.imagefileLine p.2))
    ∧ TerrainMetadata.layerSection (buildMeta td fn imgs lys)
        = String.join ((buildMeta td fn imgs lys).layers.map
            (fun p => TerrainMetadata.layerLine p.2)) := by
  have himg : (buildMeta td fn imgs lys).image_files
      = imgs.foldl (fun d c => pyDictInsert d c.1 (mkImageEntry c.1 c.2))
          [] := by
    rw [buildMeta, image_files_applyLayers, image_files_applyImages]
    rfl
  have hlay : (buildMeta td fn imgs lys).layers
      = lys.foldl (fun d c => pyDictInsert d c.1 (mkLayerEntry c.1 c.2))
          [] := by
    rw [buildMeta, layers_applyLayers, layers_applyImages]
    rfl
  refine ⟨?_, ?_, ?_, ?_, rfl, rfl⟩
  · rw [himg, map_fst_dictFold, firstOccurrences, List.foldl_map]
    rfl
  · intro k
    rw [himg, alookup_dictFold]
    cases lastVal imgs k <;> rfl
  · rw [hlay, map_fst_dictFold, firstOccurrences, List.foldl_map]
    rfl
  · intro k
    rw [hlay, alookup_dictFold]
    cases lastVal lys k <;> rfl
